import Mathlib

/-!
Verification of the ESP32NetworkTimeTemplate configuration provider.

The repository ships a single header of compile-time constants
(`src/ESP32NetworkTimeTemplate/user_settings.h`).  The specification
describes a ConfigurationProvider whose operation `load()` builds a
validated, immutable `NetworkTimeSettings` record from those constants.
The constants below are embedded directly from the source header; the
provider itself is modelled from the specification, since its code is
not part of the repository.
-/

/-- Constants from `src/ESP32NetworkTimeTemplate/user_settings.h`. -/
def USER_SETTINGS_NTP_SERVER_1 : String := "pool.ntp.org"

/-- Constant from `user_settings.h` line 2. -/
def USER_SETTINGS_NTP_SERVER_2 : String := "time.nist.gov"

/-- Constant from `user_settings.h` line 4: POSIX time zone code for America/Toronto. -/
def USER_SETTINGS_POSIX_TIME_ZONE_CODE : String := "EST5EDT,M3.2.0,M11.1.0"

/-- Constant from `user_settings.h` line 7. -/
def USER_SETTINGS_RESYNC_TIME_AFTER_THIS_MANY_HOURS : Int := 24

/-- Constant from `user_settings.h` line 9. -/
def USER_SETTINGS_MAX_WIFI_CONNECTION_ATTEMPTS : Int := 3

/-- Constant from `user_settings.h` line 10. -/
def USER_SETTINGS_TIMEOUT_LIMIT_PER_WIFI_CONNECTION_ATTEMPT : Int := 30000

/-- Constant from `user_settings.h` line 12. -/
def USER_SETTINGS_OUTPUT_DEBUG_INFO_TO_CONSOLE : Bool := true

/-- Constant from `user_settings.h` line 13. -/
def USER_SETTINGS_OUTPUT_SERIAL_BAUD_RATE : Int := 115200

/-- Modelled from the spec: the immutable `NetworkTimeSettings` value record
of section 3 of the specification (the record type itself is not present in
the repository, only the constants that populate it). -/
structure NetworkTimeSettings where
  ntpServerPrimary : String
  ntpServerSecondary : String
  posixTimeZoneCode : String
  resyncIntervalHours : Int
  maxConnectionAttempts : Int
  perAttemptTimeoutMillis : Int
  debugOutputEnabled : Bool
  serialBaudRate : Int
deriving DecidableEq, Repr

/-- Modelled from the spec: a set of compiled-in constants, one per
`USER_SETTINGS_*` definition of `user_settings.h`, forming the input of
`load()` ("values are compiled-in constants in the source artifact"). -/
structure ConstantSet where
  ntpServer1 : String
  ntpServer2 : String
  posixTimeZoneCode : String
  resyncTimeAfterThisManyHours : Int
  maxWifiConnectionAttempts : Int
  timeoutLimitPerWifiConnectionAttempt : Int
  outputDebugInfoToConsole : Bool
  outputSerialBaudRate : Int
deriving DecidableEq, Repr

/-- The constant set actually defined in the shipped `user_settings.h`. -/
def shippedConstants : ConstantSet :=
  { ntpServer1 := USER_SETTINGS_NTP_SERVER_1
    ntpServer2 := USER_SETTINGS_NTP_SERVER_2
    posixTimeZoneCode := USER_SETTINGS_POSIX_TIME_ZONE_CODE
    resyncTimeAfterThisManyHours := USER_SETTINGS_RESYNC_TIME_AFTER_THIS_MANY_HOURS
    maxWifiConnectionAttempts := USER_SETTINGS_MAX_WIFI_CONNECTION_ATTEMPTS
    timeoutLimitPerWifiConnectionAttempt :=
      USER_SETTINGS_TIMEOUT_LIMIT_PER_WIFI_CONNECTION_ATTEMPT
    outputDebugInfoToConsole := USER_SETTINGS_OUTPUT_DEBUG_INFO_TO_CONSOLE
    outputSerialBaudRate := USER_SETTINGS_OUTPUT_SERIAL_BAUD_RATE }

/-- Modelled from the spec: the single error kind of section 7,
`ConfigurationError`, raised synchronously by `load()` on a violated
validation invariant. -/
inductive ConfigurationError where
  | configurationError
deriving DecidableEq, Repr

/-- Modelled from the spec: basic syntactic validation of the POSIX TZ
string, section 4.1 ("contains at least one recognized abbreviation and
offset token"): at least one alphabetic character (an abbreviation) and at
least one digit (an offset token). -/
def posixTzBasicValid (s : String) : Bool :=
  s.data.any Char.isAlpha && s.data.any Char.isDigit

/-- Modelled from the spec: the validation invariant of sections 3 and 4.1,
as a decidable predicate on a constant set: no string field empty, no
numeric field non-positive, POSIX TZ string passes basic syntactic
validation. -/
def validConstants (c : ConstantSet) : Bool :=
  decide (c.ntpServer1 ≠ "") &&
  decide (c.ntpServer2 ≠ "") &&
  decide (c.posixTimeZoneCode ≠ "") &&
  decide (0 < c.resyncTimeAfterThisManyHours) &&
  decide (0 < c.maxWifiConnectionAttempts) &&
  decide (0 < c.timeoutLimitPerWifiConnectionAttempt) &&
  decide (0 < c.outputSerialBaudRate) &&
  posixTzBasicValid c.posixTimeZoneCode

/-- Modelled from the spec: the ConfigurationProvider operation
`load() -> NetworkTimeSettings` of section 4.1, whose implementation is not
in the repository.  It validates the compiled-in constants and either fails
with `ConfigurationError` or returns the fully populated record, copying
every constant into the corresponding field unchanged. -/
def load (c : ConstantSet) : Except ConfigurationError NetworkTimeSettings :=
  if c.ntpServer1 = "" then Except.error ConfigurationError.configurationError
  else if c.ntpServer2 = "" then Except.error ConfigurationError.configurationError
  else if c.posixTimeZoneCode = "" then Except.error ConfigurationError.configurationError
  else if c.resyncTimeAfterThisManyHours ≤ 0 then
    Except.error ConfigurationError.configurationError
  else if c.maxWifiConnectionAttempts ≤ 0 then
    Except.error ConfigurationError.configurationError
  else if c.timeoutLimitPerWifiConnectionAttempt ≤ 0 then
    Except.error ConfigurationError.configurationError
  else if c.outputSerialBaudRate ≤ 0 then
    Except.error ConfigurationError.configurationError
  else if !posixTzBasicValid c.posixTimeZoneCode then
    Except.error ConfigurationError.configurationError
  else
    Except.ok
      { ntpServerPrimary := c.ntpServer1
        ntpServerSecondary := c.ntpServer2
        posixTimeZoneCode := c.posixTimeZoneCode
        resyncIntervalHours := c.resyncTimeAfterThisManyHours
        maxConnectionAttempts := c.maxWifiConnectionAttempts
        perAttemptTimeoutMillis := c.timeoutLimitPerWifiConnectionAttempt
        debugOutputEnabled := c.outputDebugInfoToConsole
        serialBaudRate := c.outputSerialBaudRate }

/-- Modelled from the spec: the standard serial baud-rate set referenced in
section 3 ("member of the standard baud-rate set, e.g. 9600/115200/...").
The spec gives it only by example; this is the usual set of standard UART
baud rates. -/
def standardBaudRates : List Int :=
  [110, 300, 600, 1200, 2400, 4800, 9600, 14400, 19200, 28800, 38400,
   57600, 76800, 115200, 230400, 460800, 576000, 921600]

/-- The record `load` returns on the shipped constants. -/
def shippedSettings : NetworkTimeSettings :=
  { ntpServerPrimary := USER_SETTINGS_NTP_SERVER_1
    ntpServerSecondary := USER_SETTINGS_NTP_SERVER_2
    posixTimeZoneCode := USER_SETTINGS_POSIX_TIME_ZONE_CODE
    resyncIntervalHours := USER_SETTINGS_RESYNC_TIME_AFTER_THIS_MANY_HOURS
    maxConnectionAttempts := USER_SETTINGS_MAX_WIFI_CONNECTION_ATTEMPTS
    perAttemptTimeoutMillis := USER_SETTINGS_TIMEOUT_LIMIT_PER_WIFI_CONNECTION_ATTEMPT
    debugOutputEnabled := USER_SETTINGS_OUTPUT_DEBUG_INFO_TO_CONSOLE
    serialBaudRate := USER_SETTINGS_OUTPUT_SERIAL_BAUD_RATE }

/-- A constant set with an out-of-family (but positive) serial baud rate,
used to probe whether `load` restricts the baud rate to the standard set. -/
def nonStandardBaudConstants : ConstantSet :=
  { shippedConstants with outputSerialBaudRate := 7 }

/- Helper: on a valid constant set, `load` succeeds and copies every
constant into the corresponding field unchanged. -/
theorem load_of_valid (c : ConstantSet) (h : validConstants c = true) :
    load c = Except.ok
      { ntpServerPrimary := c.ntpServer1
        ntpServerSecondary := c.ntpServer2
        posixTimeZoneCode := c.posixTimeZoneCode
        resyncIntervalHours := c.resyncTimeAfterThisManyHours
        maxConnectionAttempts := c.maxWifiConnectionAttempts
        perAttemptTimeoutMillis := c.timeoutLimitPerWifiConnectionAttempt
        debugOutputEnabled := c.outputDebugInfoToConsole
        serialBaudRate := c.outputSerialBaudRate } := by
  unfold validConstants at h
  simp only [Bool.and_eq_true, decide_eq_true_eq] at h
  obtain ⟨⟨⟨⟨⟨⟨⟨h1, h2⟩, h3⟩, h4⟩, h5⟩, h6⟩, h7⟩, h8⟩ := h
  unfold load
  rw [if_neg h1, if_neg h2, if_neg h3, if_neg (by omega), if_neg (by omega),
    if_neg (by omega), if_neg (by omega), if_neg (by simp [h8])]

/- Helper: on an invalid constant set, `load` fails with the single
configuration error. -/
theorem load_of_invalid (c : ConstantSet) (h : validConstants c = false) :
    load c = Except.error ConfigurationError.configurationError := by
  unfold validConstants at h
  unfold load
  split_ifs with h1 h2 h3 h4 h5 h6 h7 h8 <;> simp_all

/- Helper: inversion of a successful `load`: the constant set was valid and
the record is exactly the copied constants. -/
theorem load_ok_inversion (c : ConstantSet) (s : NetworkTimeSettings)
    (h : load c = Except.ok s) :
    validConstants c = true ∧
    s = { ntpServerPrimary := c.ntpServer1
          ntpServerSecondary := c.ntpServer2
          posixTimeZoneCode := c.posixTimeZoneCode
          resyncIntervalHours := c.resyncTimeAfterThisManyHours
          maxConnectionAttempts := c.maxWifiConnectionAttempts
          perAttemptTimeoutMillis := c.timeoutLimitPerWifiConnectionAttempt
          debugOutputEnabled := c.outputDebugInfoToConsole
          serialBaudRate := c.outputSerialBaudRate } := by
  cases hv : validConstants c with
  | true =>
    refine ⟨rfl, ?_⟩
    have := load_of_valid c hv
    rw [this] at h
    exact (Except.ok.inj h).symm
  | false =>
    have := load_of_invalid c hv
    rw [this] at h
    exact absurd h (by simp)

/-- Claim C1: for every valid set of compiled-in constants, `load` returns a
`NetworkTimeSettings` record in which every field equals the corresponding
constant exactly, with no transformation or truncation. -/
theorem load_returns_constants_exactly (c : ConstantSet)
    (h : validConstants c = true) :
    load c = Except.ok
      { ntpServerPrimary := c.ntpServer1
        ntpServerSecondary := c.ntpServer2
        posixTimeZoneCode := c.posixTimeZoneCode
        resyncIntervalHours := c.resyncTimeAfterThisManyHours
        maxConnectionAttempts := c.maxWifiConnectionAttempts
        perAttemptTimeoutMillis := c.timeoutLimitPerWifiConnectionAttempt
        debugOutputEnabled := c.outputDebugInfoToConsole
        serialBaudRate := c.outputSerialBaudRate } :=
  load_of_valid c h

/-- Witness for claim C1 at the shipped constants. -/
theorem load_returns_constants_exactly_witness :
    validConstants shippedConstants = true ∧
    load shippedConstants = Except.ok
      { ntpServerPrimary := shippedConstants.ntpServer1
        ntpServerSecondary := shippedConstants.ntpServer2
        posixTimeZoneCode := shippedConstants.posixTimeZoneCode
        resyncIntervalHours := shippedConstants.resyncTimeAfterThisManyHours
        maxConnectionAttempts := shippedConstants.maxWifiConnectionAttempts
        perAttemptTimeoutMillis := shippedConstants.timeoutLimitPerWifiConnectionAttempt
        debugOutputEnabled := shippedConstants.outputDebugInfoToConsole
        serialBaudRate := shippedConstants.outputSerialBaudRate } :=
  ⟨rfl, load_returns_constants_exactly shippedConstants rfl⟩

/-- Claim C2: load fails with ConfigurationError exactly when a validation
invariant is violated (any string field empty, any numeric field
non-positive, or the POSIX TZ string failing basic syntactic validation);
in particular, an empty primary NTP server string fails, and a zero resync
interval fails. -/
theorem load_error_iff_invalid (c : ConstantSet) :
    (load c = Except.error ConfigurationError.configurationError ↔
      validConstants c = false)
    ∧ load { c with ntpServer1 := "" } =
        Except.error ConfigurationError.configurationError
    ∧ load { c with resyncTimeAfterThisManyHours := 0 } =
        Except.error ConfigurationError.configurationError := by
  refine ⟨⟨fun h => ?_, fun h => load_of_invalid c h⟩, ?_, ?_⟩
  · cases hv : validConstants c with
    | true =>
      have := load_of_valid c hv
      rw [this] at h
      exact absurd h (by simp)
    | false => rfl
  · exact load_of_invalid _ (by simp [validConstants])
  · exact load_of_invalid _ (by simp [validConstants])

/-- Witness for claim C2 at the shipped constants. -/
theorem load_error_iff_invalid_witness :
    (load shippedConstants = Except.error ConfigurationError.configurationError ↔
      validConstants shippedConstants = false)
    ∧ load { shippedConstants with ntpServer1 := "" } =
        Except.error ConfigurationError.configurationError
    ∧ load { shippedConstants with resyncTimeAfterThisManyHours := 0 } =
        Except.error ConfigurationError.configurationError :=
  load_error_iff_invalid shippedConstants

/-- Claim C3: load is idempotent: two successive calls over the same
compiled-in constants return equal records. -/
theorem load_idempotent (c : ConstantSet) (s1 s2 : NetworkTimeSettings)
    (h1 : load c = Except.ok s1) (h2 : load c = Except.ok s2) : s1 = s2 :=
  Except.ok.inj (h1.symm.trans h2)

/-- Witness for claim C3 at the shipped constants. -/
theorem load_idempotent_witness :
    load shippedConstants = Except.ok shippedSettings ∧
    shippedSettings = shippedSettings :=
  ⟨rfl, load_idempotent shippedConstants shippedSettings shippedSettings rfl rfl⟩

/-- Claim C4: in every record constructed by load, no string field is empty
and no numeric field is non-positive (immutability holds by construction,
as the record is a pure value never mutated by any operation). -/
theorem load_record_invariant (c : ConstantSet) (s : NetworkTimeSettings)
    (h : load c = Except.ok s) :
    s.ntpServerPrimary ≠ "" ∧ s.ntpServerSecondary ≠ "" ∧
    s.posixTimeZoneCode ≠ "" ∧ 0 < s.resyncIntervalHours ∧
    0 < s.maxConnectionAttempts ∧ 0 < s.perAttemptTimeoutMillis ∧
    0 < s.serialBaudRate := by
  obtain ⟨hv, rfl⟩ := load_ok_inversion c s h
  unfold validConstants at hv
  simp only [Bool.and_eq_true, decide_eq_true_eq] at hv
  obtain ⟨⟨⟨⟨⟨⟨⟨h1, h2⟩, h3⟩, h4⟩, h5⟩, h6⟩, h7⟩, h8⟩ := hv
  exact ⟨h1, h2, h3, h4, h5, h6, h7⟩

/-- Witness for claim C4 at the shipped constants. -/
theorem load_record_invariant_witness :
    load shippedConstants = Except.ok shippedSettings ∧
    (shippedSettings.ntpServerPrimary ≠ "" ∧
     shippedSettings.ntpServerSecondary ≠ "" ∧
     shippedSettings.posixTimeZoneCode ≠ "" ∧
     0 < shippedSettings.resyncIntervalHours ∧
     0 < shippedSettings.maxConnectionAttempts ∧
     0 < shippedSettings.perAttemptTimeoutMillis ∧
     0 < shippedSettings.serialBaudRate) :=
  ⟨rfl, load_record_invariant shippedConstants shippedSettings rfl⟩

/-- Claim C5: with the compiled-in constants of the shipped header, the
record returned by load has maxConnectionAttempts 3, perAttemptTimeoutMillis
30000 and serialBaudRate 115200 exactly. -/
theorem shipped_wifi_and_baud_fields :
    ∃ s, load shippedConstants = Except.ok s ∧
      s.maxConnectionAttempts = 3 ∧ s.perAttemptTimeoutMillis = 30000 ∧
      s.serialBaudRate = 115200 :=
  ⟨shippedSettings, rfl, rfl, rfl, rfl⟩

/-- Counterexample for claim C6: a positive but non-standard baud rate (7)
passes validation, so load returns a record whose serialBaudRate is not a
member of the standard baud-rate set. -/
theorem baud_rate_not_validated_counterexample :
    ∃ s, load nonStandardBaudConstants = Except.ok s ∧
      0 < s.serialBaudRate ∧ s.serialBaudRate ∉ standardBaudRates :=
  ⟨{ shippedSettings with serialBaudRate := 7 }, rfl, by decide, by decide⟩

/-- Claim C6 (amended): in every record returned by load, serialBaudRate is
a positive integer; membership in the standard baud-rate set is not
enforced by validation, but the shipped configuration's baud rate 115200 is
a member of the standard baud-rate set. -/
theorem load_serial_baud_positive_amended (c : ConstantSet)
    (s : NetworkTimeSettings) (h : load c = Except.ok s) :
    0 < s.serialBaudRate ∧
    (c = shippedConstants → s.serialBaudRate ∈ standardBaudRates) := by
  obtain ⟨hv, rfl⟩ := load_ok_inversion c s h
  unfold validConstants at hv
  simp only [Bool.and_eq_true, decide_eq_true_eq] at hv
  refine ⟨hv.1.2, fun hc => ?_⟩
  subst hc
  decide

/-- Witness for the amended claim C6 at the shipped constants. -/
theorem load_serial_baud_positive_amended_witness :
    load shippedConstants = Except.ok shippedSettings ∧
    (0 < shippedSettings.serialBaudRate ∧
     (shippedConstants = shippedConstants →
       shippedSettings.serialBaudRate ∈ standardBaudRates)) :=
  ⟨rfl, load_serial_baud_positive_amended shippedConstants shippedSettings rfl⟩

/-- Claim C7: load is deterministic: any two runs over the same compiled-in
constants produce equal results (purity: the model of load is a function of
the constant set alone, with no other state). -/
theorem load_run_deterministic (c : ConstantSet)
    (r1 r2 : Except ConfigurationError NetworkTimeSettings)
    (h1 : load c = r1) (h2 : load c = r2) : r1 = r2 :=
  h1.symm.trans h2

/-- Witness for claim C7 at the shipped constants. -/
theorem load_run_deterministic_witness :
    load shippedConstants = Except.ok shippedSettings ∧
    (Except.ok shippedSettings :
      Except ConfigurationError NetworkTimeSettings) = Except.ok shippedSettings :=
  ⟨rfl, load_run_deterministic shippedConstants
    (Except.ok shippedSettings) (Except.ok shippedSettings) rfl rfl⟩

/-- Claim C9: with the constant values actually defined in the shipped
source header, load succeeds: the shipped constants satisfy the validation
invariant, so the ConfigurationError branch is unreachable for them. -/
theorem shipped_load_succeeds :
    validConstants shippedConstants = true ∧
    load shippedConstants = Except.ok shippedSettings :=
  ⟨rfl, rfl⟩

/-- Claim C10: in the shipped configuration, the primary and secondary NTP
server hostnames are distinct non-empty strings, with the primary equal to
pool.ntp.org and the secondary equal to time.nist.gov. -/
theorem shipped_ntp_servers_distinct :
    ∃ s, load shippedConstants = Except.ok s ∧
      s.ntpServerPrimary = "pool.ntp.org" ∧
      s.ntpServerSecondary = "time.nist.gov" ∧
      s.ntpServerPrimary ≠ "" ∧ s.ntpServerSecondary ≠ "" ∧
      s.ntpServerPrimary ≠ s.ntpServerSecondary :=
  ⟨shippedSettings, rfl, rfl, rfl, by decide, by decide, by decide⟩
